import Mathlib

/-
Verification of the important-siblings repository.

The repository holds three near-identical script variants
(myproject0/myscript.py, myproject2/myscript.py,
myproject6/scripts/myscript.py) and one class module
(myproject2/myclass.py).  Each script prints its own module name, package
name, file path and the interpreter search path, then instantiates MyClass
and calls its dump method, which prints the same identity lines for the
class module.  The variants differ only in how they locate the sibling
class definition.

The embedding models a process run as explicit state passing: the state
holds the stdout lines printed so far and the current sys.path.  Each
print statement of the source appends one structured line; rendering a
line to the raw text Python writes is a separate function, so claims about
line shapes and claims about literal text can both be stated.
-/

/-- One printed stdout line.  There is one constructor per shape of print
statement appearing in the source: a literal string, the four f-string
shapes of the identity report, and the empty print(). -/
inductive Line
  | lit (s : String)
  | module (n : String)
  | package (p : Option String)
  | filePath (f : String)
  | sysPath (p : List String)
  | blank
deriving DecidableEq

/-- Python text of an optional string as an f-string interpolates it:
the string "None" when the value is absent, the string itself otherwise
(this is how f"Package: {__package__}" displays __package__). -/
def pyOptStr : Option String → String
  | none => "None"
  | some s => s

/-- Python repr of a list of strings, as f"sys.path: {sys.path}"
displays the search path. -/
def pyListRepr (xs : List String) : String :=
  "[" ++ String.intercalate ", " (xs.map (fun s => "'" ++ s ++ "'")) ++ "]"

/-- The raw text a structured line puts on stdout, matching the f-strings
of the source. -/
def Line.render : Line → String
  | Line.lit s => s
  | Line.module n => "Module: " ++ n
  | Line.package p => "Package: " ++ pyOptStr p
  | Line.filePath f => "File Path: " ++ f
  | Line.sysPath p => "sys.path: " ++ pyListRepr p
  | Line.blank => ""

/-- The identity globals of an executing Python module: its name, its
package (none for a directly-run script, the empty string for a top-level
module imported from outside any package, the package name otherwise) and
its file path. -/
structure ModuleCtx where
  name : String
  package : Option String
  file : String
deriving DecidableEq

/-- Process-wide observable state: the stdout lines printed so far and the
current module search path sys.path. -/
structure Proc where
  out : List Line
  path : List String
deriving DecidableEq

/-- Python print: appends one line to stdout and leaves sys.path alone. -/
def pr (l : Line) (p : Proc) : Proc :=
  Proc.mk (p.out ++ [l]) p.path

/-- MyClass.__init__ (myproject2/myclass.py lines 4-5): prints the
creation notice. -/
def MyClass.init (p : Proc) : Proc :=
  pr (Line.lit "MyClass initialized") p

/-- MyClass.dump (myproject2/myclass.py lines 7-12), executed with the
identity globals of the module in which the class definition ran. -/
def MyClass.dump (c : ModuleCtx) (p0 : Proc) : Proc :=
  let p1 := pr (Line.lit "myclass attributes...") p0
  let p2 := pr (Line.module c.name) p1
  let p3 := pr (Line.package c.package) p2
  let p4 := pr (Line.filePath c.file) p3
  pr Line.blank p4

/-- Top-to-bottom execution of myclass.py in context c: the class
definition itself prints nothing; the guard of lines 14-17 runs only when
the module is the top-level entry point. -/
def myclassModule (c : ModuleCtx) (p : Proc) : Proc :=
  if c.name = "__main__" then
    MyClass.dump c (MyClass.init (pr (Line.lit "myclass.py called directly") p))
  else p

/-- The body of main() as it appears identically in all three script
variants (myproject0/myscript.py lines 6-15, myproject2/myscript.py lines
6-15, myproject6/scripts/myscript.py lines 7-16): the script attribute
block, then construction of MyClass, then its dump.  The sys.path line
reads the search path current at the moment it prints. -/
def myscriptMain (s c : ModuleCtx) (p0 : Proc) : Proc :=
  let p1 := pr (Line.lit "myscript attributes...") p0
  let p2 := pr (Line.module s.name) p1
  let p3 := pr (Line.package s.package) p2
  let p4 := pr (Line.filePath s.file) p3
  let p5 := pr (Line.sysPath p4.path) p4
  let p6 := pr Line.blank p5
  MyClass.dump c (MyClass.init p6)

/-- The __main__ guard of myscript.py (lines 17-19 of myproject0 and
myproject2, 18-20 of myproject6): when the script is the top-level entry
point it announces itself and runs main(). -/
def myscriptGuard (s c : ModuleCtx) (p : Proc) : Proc :=
  if s.name = "__main__" then
    myscriptMain s c (pr (Line.lit "myscript.py called directly") p)
  else p

/-- A directory layout: each directory name paired with the module files
(without the .py suffix) it holds. -/
abbrev FS := List (String × List String)

/-- Resolution of a top-level module name against a search path: the first
directory on the path holding a file of that name, as Python's default
finder behaves for the plain imports of this repository. -/
def findModule (fs : FS) (path : List String) (m : String) : Option String :=
  path.find? fun d => ((fs.lookup d).getD []).contains m

/-- Resolution of a module inside a one-level package, as the import
myproject2.myclass requires: the first search-path directory holding a
subdirectory named like the package that holds the module file; the
result is that subdirectory. -/
def findInPackage (fs : FS) (path : List String) (pkg m : String) : Option String :=
  (path.find? fun d => ((fs.lookup (d ++ "/" ++ pkg)).getD []).contains m).map
    fun d => d ++ "/" ++ pkg

/-- The diagnostic Python emits for an import of a module that cannot be
located on the search path. -/
def moduleNotFound (m : String) : String :=
  "ModuleNotFoundError: No module named '" ++ m ++ "'"

/-- Outcome of one process run: exit status, the stdout lines, the stderr
diagnostics, and the final value of sys.path. -/
structure RunResult where
  exitCode : Nat
  stdout : List Line
  stderr : List String
  sysPath : List String
deriving DecidableEq

/-- The repository layout, rooted at the directory "repo".  The given
sources are myproject0/myscript.py, myproject2/myscript.py,
myproject2/myclass.py and myproject6/scripts/myscript.py.  Modelled from
the spec: the sibling class modules those imports need, myproject0's
myclass.py next to its script and myproject6's myclass.py in the classes
directory beside scripts, are part of the repository but are not among the
given files; the spec's default-configuration scenario (exit 0 with both
attribute blocks) requires them to be present, with the single
IdentityReporter behaviour of myproject2/myclass.py.  The key ending in
scripts/../classes names the same classes directory through the relative
path the myproject6 script appends, which the operating system resolves to
that directory. -/
def repoFS : FS :=
  [("repo/myproject0", ["myscript", "myclass"]),
   ("repo/myproject2", ["myscript", "myclass"]),
   ("repo/myproject6/scripts", ["myscript"]),
   ("repo/myproject6/classes", ["myclass"]),
   ("repo/myproject6/scripts/../classes", ["myclass"])]

/-- Running python myproject0/myscript.py: sys.path starts with the
script's directory followed by the interpreter's default entries; line 3
resolves the plain import of myclass on that path; on failure the process
dies with the import diagnostic before anything is printed, on success the
class module executes (its guard is false), then the script's guard runs
main(). -/
def runMyproject0 (fs : FS) (rest : List String) : RunResult :=
  let path := "repo/myproject0" :: rest
  match findModule fs path "myclass" with
  | none => RunResult.mk 1 [] [moduleNotFound "myclass"] path
  | some d =>
    let c := ModuleCtx.mk "myclass" (some "") (d ++ "/myclass.py")
    let s := ModuleCtx.mk "__main__" none "repo/myproject0/myscript.py"
    let p := myscriptGuard s c (myclassModule c (Proc.mk [] path))
    RunResult.mk 0 p.out [] p.path

/-- Running python -m myproject2.myscript from the repository root, the
invocation under which the package import of line 3 resolves with no
manual path setup: sys.path starts with the root, the script runs as
__main__ with package myproject2, and the imported class module carries
its dotted name and package. -/
def runMyproject2 (fs : FS) (rest : List String) : RunResult :=
  let path := "repo" :: rest
  match findInPackage fs path "myproject2" "myclass" with
  | none => RunResult.mk 1 [] [moduleNotFound "myproject2"] path
  | some d =>
    let c := ModuleCtx.mk "myproject2.myclass" (some "myproject2") (d ++ "/myclass.py")
    let s := ModuleCtx.mk "__main__" (some "myproject2") "repo/myproject2/myscript.py"
    let p := myscriptGuard s c (myclassModule c (Proc.mk [] path))
    RunResult.mk 0 p.out [] p.path

/-- The single entry myproject6/scripts/myscript.py line 4 appends to
sys.path before its import: the join of the script's directory with the
parent marker and the classes directory name. -/
def classesEntry : String :=
  "repo/myproject6/scripts" ++ "/../" ++ "classes"

/-- Running python myproject6/scripts/myscript.py: sys.path starts with
the script's directory followed by the interpreter's default entries, line
4 appends the classesEntry, and only then does line 5 resolve the
plain import of myclass. -/
def runMyproject6 (fs : FS) (rest : List String) : RunResult :=
  let path := ("repo/myproject6/scripts" :: rest) ++ [classesEntry]
  match findModule fs path "myclass" with
  | none => RunResult.mk 1 [] [moduleNotFound "myclass"] path
  | some d =>
    let c := ModuleCtx.mk "myclass" (some "") (d ++ "/myclass.py")
    let s := ModuleCtx.mk "__main__" none "repo/myproject6/scripts/myscript.py"
    let p := myscriptGuard s c (myclassModule c (Proc.mk [] path))
    RunResult.mk 0 p.out [] p.path

/-- Running python myproject2/myclass.py directly: the class module itself
is the top-level entry point, so its guard of lines 14-17 fires.  There is
no importing to fail, so the run always exits 0. -/
def runMyclassDirect (rest : List String) : RunResult :=
  let c := ModuleCtx.mk "__main__" none "repo/myproject2/myclass.py"
  let p := myclassModule c (Proc.mk [] ("repo/myproject2" :: rest))
  RunResult.mk 0 p.out [] p.path

/-- The five lines one dump call appends: header, module, package, file
path, blank. -/
def dumpBlock (c : ModuleCtx) : List Line :=
  [Line.lit "myclass attributes...", Line.module c.name,
   Line.package c.package, Line.filePath c.file, Line.blank]

/-- The six lines main() prints before constructing MyClass: header,
module, package, file path, search path, blank. -/
def scriptBlock (s : ModuleCtx) (path : List String) : List Line :=
  [Line.lit "myscript attributes...", Line.module s.name,
   Line.package s.package, Line.filePath s.file, Line.sysPath path,
   Line.blank]

/-- The stdout of one successful script run: the guard announcement, the
script block over the final search path, the creation notice, the class
block. -/
def scriptStdout (s c : ModuleCtx) (path : List String) : List Line :=
  Line.lit "myscript.py called directly" ::
    (scriptBlock s path ++ Line.lit "MyClass initialized" :: dumpBlock c)

/-- A run that died on an unresolved import: non-zero exit status with
the import diagnostic among the stderr output. -/
def diedOnImport (r : RunResult) (m : String) : Prop :=
  r.exitCode ≠ 0 ∧ moduleNotFound m ∈ r.stderr

/-- Neither the script attribute block nor the class attribute block
appears in the run's output. -/
def noAttributeDump (r : RunResult) : Prop :=
  Line.lit "myscript attributes..." ∉ r.stdout ∧
  Line.lit "myclass attributes..." ∉ r.stdout

/-- The output holds a line whose text is the script attribute header and,
strictly later, a line whose text is the class attribute header. -/
def blocksInOrder (out : List Line) : Prop :=
  ∃ i j, i < j ∧
    (out.get? i).map Line.render = some "myscript attributes..." ∧
    (out.get? j).map Line.render = some "myclass attributes..."

theorem dump_out (c : ModuleCtx) (p : Proc) :
    MyClass.dump c p = Proc.mk (p.out ++ dumpBlock c) p.path := by
  simp [MyClass.dump, pr, dumpBlock]

theorem myscriptMain_out (s c : ModuleCtx) (p : Proc) :
    myscriptMain s c p =
      Proc.mk (p.out ++ scriptBlock s p.path ++
        Line.lit "MyClass initialized" :: dumpBlock c) p.path := by
  simp [myscriptMain, MyClass.init, MyClass.dump, pr, scriptBlock, dumpBlock]

theorem run0_some (fs : FS) (rest : List String) (d : String)
    (h : findModule fs ("repo/myproject0" :: rest) "myclass" = some d) :
    runMyproject0 fs rest =
      RunResult.mk 0
        (scriptStdout (ModuleCtx.mk "__main__" none "repo/myproject0/myscript.py")
          (ModuleCtx.mk "myclass" (some "") (d ++ "/myclass.py"))
          ("repo/myproject0" :: rest))
        [] ("repo/myproject0" :: rest) := by
  simp [runMyproject0, h, myscriptGuard, myclassModule, myscriptMain_out,
    scriptStdout, pr]

theorem run0_none (fs : FS) (rest : List String)
    (h : findModule fs ("repo/myproject0" :: rest) "myclass" = none) :
    runMyproject0 fs rest =
      RunResult.mk 1 [] [moduleNotFound "myclass"] ("repo/myproject0" :: rest) := by
  simp [runMyproject0, h]

theorem run2_some (fs : FS) (rest : List String) (d : String)
    (h : findInPackage fs ("repo" :: rest) "myproject2" "myclass" = some d) :
    runMyproject2 fs rest =
      RunResult.mk 0
        (scriptStdout
          (ModuleCtx.mk "__main__" (some "myproject2") "repo/myproject2/myscript.py")
          (ModuleCtx.mk "myproject2.myclass" (some "myproject2") (d ++ "/myclass.py"))
          ("repo" :: rest))
        [] ("repo" :: rest) := by
  simp [runMyproject2, h, myscriptGuard, myclassModule, myscriptMain_out,
    scriptStdout, pr]

theorem run2_none (fs : FS) (rest : List String)
    (h : findInPackage fs ("repo" :: rest) "myproject2" "myclass" = none) :
    runMyproject2 fs rest =
      RunResult.mk 1 [] [moduleNotFound "myproject2"] ("repo" :: rest) := by
  simp [runMyproject2, h]

theorem run6_some (fs : FS) (rest : List String) (d : String)
    (h : findModule fs ("repo/myproject6/scripts" :: (rest ++ [classesEntry]))
      "myclass" = some d) :
    runMyproject6 fs rest =
      RunResult.mk 0
        (scriptStdout
          (ModuleCtx.mk "__main__" none "repo/myproject6/scripts/myscript.py")
          (ModuleCtx.mk "myclass" (some "") (d ++ "/myclass.py"))
          (("repo/myproject6/scripts" :: rest) ++ [classesEntry]))
        [] (("repo/myproject6/scripts" :: rest) ++ [classesEntry]) := by
  simp [runMyproject6, h, myscriptGuard, myclassModule, myscriptMain_out,
    scriptStdout, pr]

theorem run6_none (fs : FS) (rest : List String)
    (h : findModule fs ("repo/myproject6/scripts" :: (rest ++ [classesEntry]))
      "myclass" = none) :
    runMyproject6 fs rest =
      RunResult.mk 1 [] [moduleNotFound "myclass"]
        (("repo/myproject6/scripts" :: rest) ++ [classesEntry]) := by
  simp [runMyproject6, h]

theorem runMyclassDirect_eq (rest : List String) :
    runMyclassDirect rest =
      RunResult.mk 0
        (Line.lit "myclass.py called directly" :: Line.lit "MyClass initialized" ::
          dumpBlock (ModuleCtx.mk "__main__" none "repo/myproject2/myclass.py"))
        [] ("repo/myproject2" :: rest) := by
  simp [runMyclassDirect, myclassModule, MyClass.init, MyClass.dump, pr, dumpBlock]

theorem scriptStdout_blocks (s c : ModuleCtx) (path : List String) :
    blocksInOrder (scriptStdout s c path) :=
  ⟨1, 8, by decide, rfl, rfl⟩

theorem find0_repoFS (rest : List String) :
    findModule repoFS ("repo/myproject0" :: rest) "myclass" =
      some "repo/myproject0" := by
  simp +decide [findModule, repoFS]

theorem find2_repoFS (rest : List String) :
    findInPackage repoFS ("repo" :: rest) "myproject2" "myclass" =
      some "repo/myproject2" := by
  simp +decide [findInPackage, repoFS]

theorem find6_repoFS (rest : List String) :
    ∃ d, findModule repoFS ("repo/myproject6/scripts" :: (rest ++ [classesEntry]))
      "myclass" = some d := by
  have h : (findModule repoFS
      ("repo/myproject6/scripts" :: (rest ++ [classesEntry])) "myclass").isSome := by
    unfold findModule
    rw [List.find?_isSome]
    exact ⟨classesEntry, by simp, by decide⟩
  exact Option.isSome_iff_exists.mp h

/-- C1: whenever the module providing MyClass cannot be located on the
search path, each script variant's run exits with non-zero status, its
output carries the import-resolution diagnostic, and neither the script
attribute block nor the class attribute block is produced (stdout stays
empty). -/
theorem c1_unresolved_import (fs : FS) (rest : List String)
    (h0 : findModule fs ("repo/myproject0" :: rest) "myclass" = none)
    (h2 : findInPackage fs ("repo" :: rest) "myproject2" "myclass" = none)
    (h6 : findModule fs ("repo/myproject6/scripts" :: (rest ++ [classesEntry]))
      "myclass" = none) :
    (diedOnImport (runMyproject0 fs rest) "myclass" ∧
      noAttributeDump (runMyproject0 fs rest) ∧
      (runMyproject0 fs rest).stdout = []) ∧
    (diedOnImport (runMyproject2 fs rest) "myproject2" ∧
      noAttributeDump (runMyproject2 fs rest) ∧
      (runMyproject2 fs rest).stdout = []) ∧
    (diedOnImport (runMyproject6 fs rest) "myclass" ∧
      noAttributeDump (runMyproject6 fs rest) ∧
      (runMyproject6 fs rest).stdout = []) := by
  rw [run0_none fs rest h0, run2_none fs rest h2, run6_none fs rest h6]
  simp [diedOnImport, noAttributeDump]

theorem c1_witness :
    diedOnImport (runMyproject0 [] []) "myclass" ∧
    noAttributeDump (runMyproject0 [] []) ∧
    (runMyproject0 [] []).stdout = [] :=
  (c1_unresolved_import [] [] (by decide) (by decide) (by decide)).1

/-- C2: with the repository's own layout on the search path and no setup
beyond what the scripts themselves perform, each variant's invocation
exits 0 and its output shows the script attribute block before the class
attribute block. -/
theorem c2_default_config (rest : List String) :
    ((runMyproject0 repoFS rest).exitCode = 0 ∧
      blocksInOrder (runMyproject0 repoFS rest).stdout) ∧
    ((runMyproject2 repoFS rest).exitCode = 0 ∧
      blocksInOrder (runMyproject2 repoFS rest).stdout) ∧
    ((runMyproject6 repoFS rest).exitCode = 0 ∧
      blocksInOrder (runMyproject6 repoFS rest).stdout) := by
  obtain ⟨d6, h6⟩ := find6_repoFS rest
  rw [run0_some repoFS rest _ (find0_repoFS rest),
    run2_some repoFS rest _ (find2_repoFS rest),
    run6_some repoFS rest d6 h6]
  exact ⟨⟨rfl, scriptStdout_blocks _ _ _⟩, ⟨rfl, scriptStdout_blocks _ _ _⟩,
    ⟨rfl, scriptStdout_blocks _ _ _⟩⟩

/-- C3: every successful invocation of a script variant prints a line that
is the literal text of the script attribute header and, strictly later, a
line that is the literal text of the class attribute header. -/
theorem c3_headers_ordered (fs : FS) (rest : List String) :
    ((runMyproject0 fs rest).exitCode = 0 →
      blocksInOrder (runMyproject0 fs rest).stdout) ∧
    ((runMyproject2 fs rest).exitCode = 0 →
      blocksInOrder (runMyproject2 fs rest).stdout) ∧
    ((runMyproject6 fs rest).exitCode = 0 →
      blocksInOrder (runMyproject6 fs rest).stdout) := by
  refine ⟨fun e0 => ?_, fun e2 => ?_, fun e6 => ?_⟩
  · rcases h : findModule fs ("repo/myproject0" :: rest) "myclass" with _ | d
    · rw [run0_none fs rest h] at e0
      exact absurd e0 Nat.one_ne_zero
    · rw [run0_some fs rest d h]
      exact scriptStdout_blocks _ _ _
  · rcases h : findInPackage fs ("repo" :: rest) "myproject2" "myclass" with _ | d
    · rw [run2_none fs rest h] at e2
      exact absurd e2 Nat.one_ne_zero
    · rw [run2_some fs rest d h]
      exact scriptStdout_blocks _ _ _
  · rcases h : findModule fs ("repo/myproject6/scripts" :: (rest ++ [classesEntry]))
      "myclass" with _ | d
    · rw [run6_none fs rest h] at e6
      exact absurd e6 Nat.one_ne_zero
    · rw [run6_some fs rest d h]
      exact scriptStdout_blocks _ _ _

theorem c3_witness :
    blocksInOrder (runMyproject0 repoFS []).stdout ∧
    blocksInOrder (runMyproject2 repoFS []).stdout ∧
    blocksInOrder (runMyproject6 repoFS []).stdout :=
  ⟨(c3_headers_ordered repoFS []).1 (by decide),
   (c3_headers_ordered repoFS []).2.1 (by decide),
   (c3_headers_ordered repoFS []).2.2 (by decide)⟩

/-- C4: a report emits, in order, the header line, the module name line,
the package name line and the file path line; the script's main follows
them with the search-path line, while MyClass.dump never emits a
search-path line. -/
theorem c4_report_shape (s c : ModuleCtx) (p : Proc) :
    (myscriptMain s c p).out =
      p.out ++ [Line.lit "myscript attributes...", Line.module s.name,
        Line.package s.package, Line.filePath s.file, Line.sysPath p.path,
        Line.blank] ++ Line.lit "MyClass initialized" :: dumpBlock c ∧
    (MyClass.dump c p).out = p.out ++
      [Line.lit "myclass attributes...", Line.module c.name,
        Line.package c.package, Line.filePath c.file, Line.blank] ∧
    ∀ q, Line.sysPath q ∉ dumpBlock c := by
  refine ⟨?_, ?_, ?_⟩
  · rw [myscriptMain_out]
    simp [scriptBlock]
  · rw [dump_out]
    rfl
  · intro q
    simp [dumpBlock]

/-- C5 counterexample: run directly, the script has no enclosing package,
yet its grouping line renders as the text Package: None rather than as a
line with an empty grouping name. -/
theorem c5_counterexample :
    Line.package none ∈ (runMyproject0 repoFS []).stdout ∧
    Line.render (Line.package none) = "Package: None" ∧
    Line.render (Line.package none) ≠ "Package: " := by
  exact ⟨by decide, rfl, by decide⟩

/-- C5 amended: the grouping line shows the grouping name verbatim, so a
top-level module imported from outside any package (grouping the empty
string) gets an empty grouping name, while a directly-run script (grouping
absent) shows the interpreter's None marker; the myproject0 run exhibits
both cases. -/
theorem c5_grouping_line :
    (∀ g : String, Line.render (Line.package (some g)) = "Package: " ++ g) ∧
    Line.render (Line.package (some "")) = "Package: " ∧
    Line.render (Line.package none) = "Package: None" ∧
    Line.package (some "") ∈ (runMyproject0 repoFS []).stdout ∧
    Line.package none ∈ (runMyproject0 repoFS []).stdout :=
  ⟨fun _ => rfl, rfl, rfl, by decide, by decide⟩

/-- C6: constructing MyClass takes no inputs and always emits exactly the
one creation-notice line, leaving the search path alone; everywhere the
repository constructs a reporter, that notice precedes the reporter's dump
block. -/
theorem c6_creation_notice (s c : ModuleCtx) (p : Proc) :
    (MyClass.init p).out = p.out ++ [Line.lit "MyClass initialized"] ∧
    (MyClass.init p).path = p.path ∧
    (∃ pre, (myscriptMain s c p).out =
      pre ++ Line.lit "MyClass initialized" :: dumpBlock c) ∧
    (∃ pre, (myclassModule (ModuleCtx.mk "__main__" c.package c.file) p).out =
      pre ++ Line.lit "MyClass initialized" ::
        dumpBlock (ModuleCtx.mk "__main__" c.package c.file)) := by
  refine ⟨rfl, rfl, ⟨p.out ++ scriptBlock s p.path, ?_⟩,
    ⟨p.out ++ [Line.lit "myclass.py called directly"], ?_⟩⟩
  · rw [myscriptMain_out]
  · simp [myclassModule, MyClass.init, pr, dump_out]

/-- C7: within one process, a dump call appends a block that depends only
on the module context fixed at load time, so two successive calls append
two identical blocks and leave the search path untouched. -/
theorem c7_dump_repeatable (c : ModuleCtx) (p : Proc) :
    ∃ b, (MyClass.dump c p).out = p.out ++ b ∧
      (MyClass.dump c (MyClass.dump c p)).out = p.out ++ b ++ b ∧
      (MyClass.dump c (MyClass.dump c p)).path = p.path :=
  ⟨dumpBlock c, by simp [dump_out]⟩

/-- C8: every run of every variant terminates after a fixed finite
sequence of prints: exit status 0 with the thirteen-line transcript, or
exit status 1 with empty stdout when the import fails. -/
theorem c8_linear_termination (fs : FS) (rest : List String) :
    ((runMyproject0 fs rest).exitCode = 0 ∧
        (runMyproject0 fs rest).stdout.length = 13 ∨
      (runMyproject0 fs rest).exitCode = 1 ∧ (runMyproject0 fs rest).stdout = []) ∧
    ((runMyproject2 fs rest).exitCode = 0 ∧
        (runMyproject2 fs rest).stdout.length = 13 ∨
      (runMyproject2 fs rest).exitCode = 1 ∧ (runMyproject2 fs rest).stdout = []) ∧
    ((runMyproject6 fs rest).exitCode = 0 ∧
        (runMyproject6 fs rest).stdout.length = 13 ∨
      (runMyproject6 fs rest).exitCode = 1 ∧ (runMyproject6 fs rest).stdout = []) := by
  refine ⟨?_, ?_, ?_⟩
  · rcases h : findModule fs ("repo/myproject0" :: rest) "myclass" with _ | d
    · rw [run0_none fs rest h]
      exact Or.inr ⟨rfl, rfl⟩
    · rw [run0_some fs rest d h]
      exact Or.inl ⟨rfl, rfl⟩
  · rcases h : findInPackage fs ("repo" :: rest) "myproject2" "myclass" with _ | d
    · rw [run2_none fs rest h]
      exact Or.inr ⟨rfl, rfl⟩
    · rw [run2_some fs rest d h]
      exact Or.inl ⟨rfl, rfl⟩
  · rcases h : findModule fs ("repo/myproject6/scripts" :: (rest ++ [classesEntry]))
      "myclass" with _ | d
    · rw [run6_none fs rest h]
      exact Or.inr ⟨rfl, rfl⟩
    · rw [run6_some fs rest d h]
      exact Or.inl ⟨rfl, rfl⟩

/-- C9: the myproject6 script appends exactly the one scripts/../classes
entry to the search path before its import, the other variants leave the
path exactly as the interpreter set it, and a successful myproject6 run
prints the search path holding the appended entry. -/
theorem c9_path_mutation (fs : FS) (rest : List String) (d : String)
    (h : findModule fs ("repo/myproject6/scripts" :: (rest ++ [classesEntry]))
      "myclass" = some d) :
    (runMyproject6 fs rest).sysPath =
      ("repo/myproject6/scripts" :: rest) ++ [classesEntry] ∧
    classesEntry = "repo/myproject6/scripts/../classes" ∧
    (runMyproject0 fs rest).sysPath = "repo/myproject0" :: rest ∧
    (runMyproject2 fs rest).sysPath = "repo" :: rest ∧
    Line.sysPath (("repo/myproject6/scripts" :: rest) ++ [classesEntry]) ∈
      (runMyproject6 fs rest).stdout ∧
    classesEntry ∈ (runMyproject6 fs rest).sysPath := by
  refine ⟨?_, by decide, ?_, ?_, ?_, ?_⟩
  · rw [run6_some fs rest d h]
  · rcases h0 : findModule fs ("repo/myproject0" :: rest) "myclass" with _ | d0
    · rw [run0_none fs rest h0]
    · rw [run0_some fs rest d0 h0]
  · rcases h2 : findInPackage fs ("repo" :: rest) "myproject2" "myclass" with _ | d2
    · rw [run2_none fs rest h2]
    · rw [run2_some fs rest d2 h2]
  · rw [run6_some fs rest d h]
    simp [scriptStdout, scriptBlock]
  · rw [run6_some fs rest d h]
    simp

theorem c9_witness :
    Line.sysPath (["repo/myproject6/scripts"] ++ [classesEntry]) ∈
      (runMyproject6 repoFS []).stdout ∧
    classesEntry ∈ (runMyproject6 repoFS []).sysPath :=
  (c9_path_mutation repoFS [] classesEntry (by decide)).2.2.2.2

/-- C10: running myclass.py directly prints its announcement line, then
exactly one creation notice, then one class attribute block, and exits 0,
with the script attribute header never appearing. -/
theorem c10_myclass_direct (rest : List String) :
    (runMyclassDirect rest).exitCode = 0 ∧
    (runMyclassDirect rest).stdout =
      [Line.lit "myclass.py called directly", Line.lit "MyClass initialized",
       Line.lit "myclass attributes...", Line.module "__main__",
       Line.package none, Line.filePath "repo/myproject2/myclass.py",
       Line.blank] ∧
    Line.lit "myscript attributes..." ∉ (runMyclassDirect rest).stdout := by
  rw [runMyclassDirect_eq rest]
  exact ⟨rfl, rfl, by simp [dumpBlock]⟩
